import Mathlib

/-!
Verification development for the colorado_river data pipeline
(src/colorado_river/usgs.py and src/colorado_river/eda.py).

Shallow embedding conventions:
* pandas / numpy floating point cells are modelled as `Option ℚ`
  (`none` is the NaN / missing sentinel); the one place where IEEE
  infinities can matter (the z-score division) is modelled by the
  richer type `PVal` below.
* Python exceptions are modelled by `Except` with an explicit error
  type (`PyErr` mirrors KeyError / IndexError / TypeError /
  ValueError / AttributeError plus the pandas InvalidIndexError).
* The square root used by pandas `rolling(...).std()` is kept
  abstract: every definition that needs it takes a function
  `sq : ℚ → ℚ` applied to the rolling sample variance, and theorems
  that need it assume only `SqrtLike sq` (sq vanishes exactly at 0),
  which is the only property of the real square root the claims use.
  Witnesses instantiate `sq := id`, which satisfies `SqrtLike`.
* Timestamp and float parsing are delegated in the source to the
  external libraries dateutil and the Python float constructor; they
  are modelled as parameters `pt : String → Option ℤ` (instants as
  integers, `none` = ValueError) and `pf : String → Option ℚ`.
-/

/-- IEEE-style value for the z-score cells: NaN, plus or minus
infinity, or a finite rational. -/
inductive PVal where
  | nan : PVal
  | pinf : PVal
  | ninf : PVal
  | fin : ℚ → PVal
deriving DecidableEq

/-- IEEE division of finite doubles: division by zero gives NaN for a
zero numerator and a signed infinity otherwise. -/
def fdiv (a b : ℚ) : PVal :=
  if b = 0 then (if a = 0 then PVal.nan else if 0 < a then PVal.pinf else PVal.ninf)
  else PVal.fin (a / b)

/-- Elementwise z cell: `(x - mu) / sigma` where any NaN operand makes
the result NaN (IEEE propagation). -/
def mkZ : Option ℚ → Option ℚ → Option ℚ → PVal
  | some x, some m, some s => fdiv (x - m) s
  | _, _, _ => PVal.nan

/-- Collapse a `PVal` into a table cell; `zcell_not_inf` below shows
the infinite cases never arise for z-scores. -/
def PVal.toCell : PVal → Option ℚ
  | PVal.fin q => some q
  | _ => none

/-- Property of the (externally computed) square root that the claims
rely on: it vanishes exactly at zero. -/
def SqrtLike (sq : ℚ → ℚ) : Prop := ∀ v : ℚ, sq v = 0 ↔ v = 0

/-- Trailing window of rows `max 0 (i+1-w) .. i`, as produced by
pandas `rolling(w)` at row `i`. -/
def windowSlice (xs : List (Option ℚ)) (w i : ℕ) : List (Option ℚ) :=
  (xs.take (i + 1)).drop (i + 1 - w)

/-- Non-missing observations inside the trailing window (pandas
rolling statistics skip NaN). -/
def obs (xs : List (Option ℚ)) (w i : ℕ) : List ℚ :=
  (windowSlice xs w i).reduceOption

/-- Rolling mean with minimum observation count `p`
(`rolling(w, min_periods=p).mean()` at row `i`). -/
def rmean (xs : List (Option ℚ)) (w p i : ℕ) : Option ℚ :=
  let l := obs xs w i
  if p ≤ l.length then some (l.sum / (l.length : ℚ)) else none

/-- Rolling sample variance (ddof = 1) with minimum observation count
`p`, the quantity whose square root pandas `.std()` returns. -/
def rvar (xs : List (Option ℚ)) (w p i : ℕ) : Option ℚ :=
  let l := obs xs w i
  if p ≤ l.length then
    some ((l.map (fun v => (v - l.sum / (l.length : ℚ)) ^ 2)).sum / ((l.length : ℚ) - 1))
  else none

/-- Rolling standard deviation: the abstract square root `sq` applied
to the rolling variance (`rolling(w, min_periods=p).std()`). -/
def rstd (sq : ℚ → ℚ) (xs : List (Option ℚ)) (w p i : ℕ) : Option ℚ :=
  (rvar xs w p i).map sq

/-- The z-score cell at row `i` of a column `xs`, as computed by line
106 of eda.py: `(out[col] - mu) / sigma`. -/
def zcellP (sq : ℚ → ℚ) (xs : List (Option ℚ)) (w p i : ℕ) : PVal :=
  mkZ (xs.getD i none) (rmean xs w p i) (rstd sq xs w p i)

/-- Column of a daily table: name, whether its dtype kind is in "fc"
(the numeric check on line 102 of eda.py), and its cells. -/
structure DCol where
  name : String
  numeric : Bool
  vals : List (Option ℚ)
deriving DecidableEq

/-- Daily table: a date index plus columns (eda.py operates on such
pandas DataFrames). -/
structure DTable where
  index : List ℤ
  cols : List DCol
deriving DecidableEq

/-- The `_z` column derived from column `c`
(line 106 of eda.py, with min_periods fixed at 7 by line 104). -/
def zColOf (sq : ℚ → ℚ) (w : ℕ) (c : DCol) : DCol :=
  { name := c.name ++ "_z"
    numeric := true
    vals := (List.range c.vals.length).map (fun i => (zcellP sq c.vals w 7 i).toCell) }

/-- Pandas column assignment `out[name] = col`: replace in place when
the name exists, otherwise append at the end. -/
def setCol (cols : List DCol) (c : DCol) : List DCol :=
  if cols.any (fun d => d.name = c.name) then
    cols.map (fun d => if d.name = c.name then c else d)
  else cols ++ [c]

/-- The pandas error raised when min_periods exceeds the window. -/
def minPeriodsMsg : String := "ValueError: min_periods 7 must be <= window"

/-- The column loop of rolling_anoms (lines 101-106 of eda.py): it
iterates over the snapshot of the original columns, skips non-numeric
columns, and for each numeric column computes rolling statistics
(pandas raises ValueError when min_periods = 7 exceeds the window)
and assigns the new `_z` column. -/
def anomLoop (sq : ℚ → ℚ) (w : ℕ) : List DCol → List DCol → Except String (List DCol)
  | [], out => Except.ok out
  | c :: rest, out =>
    if c.numeric = false then anomLoop sq w rest out
    else if w < 7 then Except.error minPeriodsMsg
    else anomLoop sq w rest (setCol out (zColOf sq w c))

/-- rolling_anoms (lines 92-107 of eda.py): return the table unchanged
when it is empty (no rows or no columns), otherwise run the column
loop over a copy. -/
def rolling_anoms (sq : ℚ → ℚ) (daily : DTable) (w : ℕ) : Except String DTable :=
  if daily.index.length = 0 ∨ daily.cols.isEmpty then Except.ok daily
  else (anomLoop sq w daily.cols daily.cols).map (fun cs => { index := daily.index, cols := cs })

/-- Time-series table for to_local (eda.py lines 21-33): an index
timezone tag (`none` = naive), the stored index instants (UTC epoch
minutes when zone-aware, local wall-clock minutes when naive), and
data columns. -/
structure TsTable where
  tz : Option String
  times : List ℤ
  cols : List (String × List (Option ℚ))
deriving DecidableEq

/-- Fixed local zone of eda.py line 18. -/
def DENVER_TZ : String := "America/Denver"

/-- to_local (eda.py lines 21-33): a naive index is returned
unchanged; otherwise the instants are converted to Denver wall-clock
(`tz_convert`) and the zone tag is dropped (`tz_localize(None)`).
The zone-offset computation lives in the tz database, so it is kept
abstract as `off zone instant` (minutes east of UTC). -/
def to_local (off : String → ℤ → ℤ) (t : TsTable) : TsTable :=
  match t.tz with
  | none => t
  | some _ =>
    { tz := none
      times := t.times.map (fun u => u + off DENVER_TZ u)
      cols := t.cols }

/-! ## JSON model and the fetch_iv / fetch_dv parsing loops -/

/-- JSON values as returned by `r.json()` in usgs.py. -/
inductive Json where
  | null : Json
  | bool : Bool → Json
  | num : ℚ → Json
  | str : String → Json
  | arr : List Json → Json
  | obj : List (String × Json) → Json

/-- Python exception kinds that the parsing code can raise. -/
inductive PyErr where
  | keyError : PyErr
  | indexError : PyErr
  | typeError : PyErr
  | valueError : PyErr
  | attributeError : PyErr
  | invalidIndexError : PyErr
deriving DecidableEq

/-- First-match association lookup (Python dict access for our
string-keyed JSON objects and for file maps). -/
def alookup {α β : Type} [DecidableEq α] (k : α) : List (α × β) → Option β
  | [] => none
  | (k', v) :: rest => if k' = k then some v else alookup k rest

/-- Python `d[k]` on a JSON value: KeyError when the key is absent,
TypeError when the value is not a dict. -/
def getItem (j : Json) (k : String) : Except PyErr Json :=
  match j with
  | Json.obj kvs =>
    match alookup k kvs with
    | some v => Except.ok v
    | none => Except.error PyErr.keyError
  | _ => Except.error PyErr.typeError

/-- Python `l[i]` on a JSON value: IndexError past the end, TypeError
when the value is not a list. -/
def getIdx (j : Json) (i : ℕ) : Except PyErr Json :=
  match j with
  | Json.arr xs =>
    match xs.get? i with
    | some v => Except.ok v
    | none => Except.error PyErr.indexError
  | _ => Except.error PyErr.typeError

/-- Python `d.get(k, default)`: AttributeError when the receiver is
not a dict (usgs.py lines 113 and 161 call this on the decoded
payload). -/
def jgetD (j : Json) (k : String) (d : Json) : Except PyErr Json :=
  match j with
  | Json.obj kvs => Except.ok ((alookup k kvs).getD d)
  | _ => Except.error PyErr.attributeError

/-- Expect a JSON array (the `for` loops iterate their operand). -/
def asArr (j : Json) : Except PyErr (List Json) :=
  match j with
  | Json.arr xs => Except.ok xs
  | _ => Except.error PyErr.typeError

/-- Expect a JSON string (isoparse requires a string argument). -/
def asStr (j : Json) : Except PyErr String :=
  match j with
  | Json.str s => Except.ok s
  | _ => Except.error PyErr.typeError

/-- The sentinel test on usgs.py lines 121 and 168:
`v["value"] not in ("", None)` is false exactly for the empty string
and for null. -/
def isEmptySentinel : Json → Bool
  | Json.str "" => true
  | Json.null => true
  | _ => false

/-- Python `float(x)` with string parsing delegated to the parameter
`pf` (`none` = ValueError). -/
def pyFloat (pf : String → Option ℚ) : Json → Except PyErr ℚ
  | Json.num q => Except.ok q
  | Json.bool b => Except.ok (if b then 1 else 0)
  | Json.str s =>
    match pf s with
    | some q => Except.ok q
    | none => Except.error PyErr.valueError
  | _ => Except.error PyErr.typeError

/-- One record of the inner loop (usgs.py lines 117-122 and 165-169):
parse `v["dateTime"]` with the external parser `pt` (ValueError when
unparseable), then coerce `v["value"]` (empty string and null become
the missing value, anything else goes through `float`). -/
def parseRecord (pt : String → Option ℤ) (pf : String → Option ℚ) (v : Json) :
    Except PyErr (ℤ × Option ℚ) := do
  let dtj ← getItem v "dateTime"
  let s ← asStr dtj
  let t ← match pt s with
    | some t => Except.ok t
    | none => Except.error PyErr.valueError
  let vj ← getItem v "value"
  let val ← if isEmptySentinel vj then Except.ok (none : Option ℚ)
    else do
      let q ← pyFloat pf vj
      Except.ok (some q)
  Except.ok (t, val)

/-- Sequential parsing of the record list, aborting at the first
failing record exactly as the Python for loop does. -/
def mapAllRecords (pt : String → Option ℤ) (pf : String → Option ℚ) :
    List Json → Except PyErr (List (ℤ × Option ℚ))
  | [] => Except.ok []
  | v :: vs => do
    let r ← parseRecord pt pf v
    let rs ← mapAllRecords pt pf vs
    Except.ok (r :: rs)

/-- Per-variable series frame built by one iteration of the outer
loop: the variable code (column name) and the rows sorted by time
(`set_index("time").sort_index()`). -/
structure SeriesFrame where
  code : String
  rows : List (ℤ × Option ℚ)
deriving DecidableEq

/-- One iteration of the outer loop (usgs.py lines 113-124 and
161-171): drill into the entry with plain subscripts — a missing key
raises KeyError, an empty list raises IndexError — then parse the
records; an entry with no records produces no frame. -/
def parseSeries (pt : String → Option ℤ) (pf : String → Option ℚ) (ts : Json) :
    Except PyErr (Option SeriesFrame) := do
  let var ← getItem ts "variable"
  let vcs ← getItem var "variableCode"
  let vc0 ← getIdx vcs 0
  let codej ← getItem vc0 "value"
  let code ← asStr codej
  let valsArr ← getItem ts "values"
  let v0 ← getIdx valsArr 0
  let inner ← getItem v0 "value"
  let lst ← asArr inner
  let recs ← mapAllRecords pt pf lst
  if recs.isEmpty then Except.ok none
  else Except.ok (some { code := code, rows := recs.insertionSort (fun a b => a.1 ≤ b.1) })

/-- Sequential parsing of the timeSeries entries, aborting at the
first failing entry exactly as the Python for loop does. -/
def mapAllSeries (pt : String → Option ℤ) (pf : String → Option ℚ) :
    List Json → Except PyErr (List (Option SeriesFrame))
  | [] => Except.ok []
  | t :: ts => do
    let r ← parseSeries pt pf t
    let rs ← mapAllSeries pt pf ts
    Except.ok (r :: rs)

/-- Column-oriented table produced by fetch_iv / fetch_dv: a time (or
date) index and one value column per series. -/
structure WTable where
  index : List ℤ
  cols : List (String × List (Option ℚ))
deriving DecidableEq

/-- The empty table returned when no series had records
(usgs.py lines 126-128 and 173-174). -/
def emptyW : WTable := { index := [], cols := [] }

/-- Cell of frame `f` at time `t` after the outer join: the stored
value when `t` is a key of `f`, otherwise missing (both a stored null
and an absent row surface as NaN in pandas). -/
def cellAt (f : SeriesFrame) (t : ℤ) : Option ℚ :=
  (alookup t f.rows).join

/-- Outer join on the time index performed by
`pd.concat(frames, axis=1).sort_index()` (usgs.py lines 130 and 176):
the index is the sorted deduplicated union of the frame keys and each
frame contributes one column aligned on it. -/
def joinFrames (frames : List SeriesFrame) : WTable :=
  let u := ((frames.map (fun f => f.rows.map Prod.fst)).flatten.dedup).insertionSort (· ≤ ·)
  { index := u
    cols := frames.map (fun f => (f.code, u.map (fun t => cellAt f t))) }

/-- `pd.concat(frames, axis=1)` raises InvalidIndexError when some
frame has duplicate index labels (the identical-duplicate-index
corner of pandas concat is not modelled); otherwise it outer-joins. -/
def concatFrames (frames : List SeriesFrame) : Except PyErr WTable :=
  if ∀ f ∈ frames, (f.rows.map Prod.fst).Nodup then Except.ok (joinFrames frames)
  else Except.error PyErr.invalidIndexError

/-- Column renaming of usgs.py lines 132-133 and 177-178: each code
found in the rename map is replaced by its friendly name. -/
def renameCols (ren : List (String × String)) (t : WTable) : WTable :=
  { index := t.index
    cols := t.cols.map (fun nc => ((alookup nc.1 ren).getD nc.1, nc.2)) }

/-- Shared body of fetch_iv and fetch_dv after the HTTP request:
`js.get("value", {}).get("timeSeries", [])`, the series loop, the
empty-result short circuit, the concat outer join and the rename. -/
def parseEnvelope (pt : String → Option ℤ) (pf : String → Option ℚ)
    (ren : List (String × String)) (js : Json) : Except PyErr WTable := do
  let v ← jgetD js "value" (Json.obj [])
  let tsj ← jgetD v "timeSeries" (Json.arr [])
  let tsList ← asArr tsj
  let fopts ← mapAllSeries pt pf tsList
  let frames := fopts.reduceOption
  if frames.isEmpty then Except.ok emptyW
  else do
    let tbl ← concatFrames frames
    Except.ok (renameCols ren tbl)

/-- Rename map of fetch_iv (usgs.py line 132). -/
def ivRename : List (String × String) :=
  [("00060", "discharge_cfs"), ("00065", "stage_ft")]

/-- Rename map of fetch_dv (usgs.py line 177). -/
def dvRename : List (String × String) := [("00060", "discharge_cfs")]

/-- Parsing phase of fetch_iv (usgs.py lines 110-134), with the
timestamp parser `pt` standing for
`dtp.isoparse(...).astimezone(timezone.utc)`. -/
def parse_iv (pt : String → Option ℤ) (pf : String → Option ℚ) (js : Json) :
    Except PyErr WTable :=
  parseEnvelope pt pf ivRename js

/-- Parsing phase of fetch_dv (usgs.py lines 160-179), with the date
parser `pt` standing for `dtp.isoparse(...).date()`. -/
def parse_dv (pt : String → Option ℤ) (pf : String → Option ℚ) (js : Json) :
    Except PyErr WTable :=
  parseEnvelope pt pf dvRename js

/-! ## Cache layer (usgs.py lines 220-247) -/

/-- File system state: the Parquet artifacts keyed by path, with
Parquet round-tripping modelled as the identity. -/
structure FS where
  files : List (String × WTable)

/-- cache_path (usgs.py lines 220-223). -/
def cache_path (site tag : String) : String :=
  "data/" ++ (site.replace "/" "-") ++ "_" ++ tag ++ ".parquet"

/-- Shared body of load_or_fetch_iv and load_or_fetch_dv: on hit the
artifact is loaded verbatim and no fetch happens; on miss the fetch
result `fetched` (whatever it is, including the empty table) is
persisted and returned. The returned Bool records whether a remote
request was issued. -/
def load_or_fetch (fetched : WTable) (site tag : String) (fs : FS) :
    WTable × FS × Bool :=
  let path := cache_path site tag
  match alookup path fs.files with
  | some t => (t, fs, false)
  | none => (fetched, { files := (path, fetched) :: fs.files }, true)

/-- load_or_fetch_iv (usgs.py lines 226-235); the fetch_iv result for
the resolved window is the parameter `fetched`. -/
def load_or_fetch_iv (fetched : WTable) (site : String) (days : ℕ) (fs : FS) :
    WTable × FS × Bool :=
  load_or_fetch fetched site ("iv_" ++ toString days ++ "d") fs

/-- load_or_fetch_dv (usgs.py lines 238-247). -/
def load_or_fetch_dv (fetched : WTable) (site : String) (years : ℕ) (fs : FS) :
    WTable × FS × Bool :=
  load_or_fetch fetched site ("dv_" ++ toString years ++ "y") fs

/-! ## Concrete instances used by counterexamples and witnesses -/

/-- Concrete stand-in for the external timestamp parser: it parses
exactly one string, to instant 0. -/
def pt0 : String → Option ℤ :=
  fun s => if s = "2024-01-01T00:00:00Z" then some 0 else none

/-- Concrete stand-in for the external float parser. -/
def pf0 : String → Option ℚ :=
  fun s => if s = "1.5" then some (3 / 2) else none

/-- Well-formed timeSeries entry of the documented envelope shape,
wrapping the given record list. -/
def mkSeriesJson (code : String) (recs : List Json) : Json :=
  Json.obj
    [("variable", Json.obj [("variableCode", Json.arr [Json.obj [("value", Json.str code)]])]),
     ("values", Json.arr [Json.obj [("value", Json.arr recs)]])]

/-- Well-formed response envelope around the given timeSeries list. -/
def mkEnvelope (ts : List Json) : Json :=
  Json.obj [("value", Json.obj [("timeSeries", Json.arr ts)])]

/-- Record with a parseable timestamp and the empty-string value
sentinel. -/
def goodRec : Json :=
  Json.obj [("dateTime", Json.str "2024-01-01T00:00:00Z"), ("value", Json.str "")]

/-- Record whose dateTime string the timestamp parser rejects. -/
def badTimeRec : Json :=
  Json.obj [("dateTime", Json.str "not-a-timestamp")]

/-- Seven increasing observations 0..6. -/
def exCol : List (Option ℚ) :=
  [some 0, some 1, some 2, some 3, some 4, some 5, some 6]

/-- Seven observations followed by a missing one. -/
def exColHole : List (Option ℚ) :=
  [some 0, some 1, some 2, some 3, some 4, some 5, some 6, none]

/-- Seven constant observations. -/
def constCol : List (Option ℚ) :=
  [some 5, some 5, some 5, some 5, some 5, some 5, some 5]

/-- Numeric column named a with the increasing observations. -/
def aCol : DCol := { name := "a", numeric := true, vals := exCol }

/-- Seven-row one-column daily table. -/
def dEx : DTable := { index := [0, 1, 2, 3, 4, 5, 6], cols := [aCol] }

/-- Zero-row daily table that still has a float-typed column. -/
def dEmptyRows : DTable :=
  { index := [], cols := [{ name := "a", numeric := true, vals := [] }] }

/-- Discharge frame with rows at times 0 and 2. -/
def fEx : SeriesFrame := { code := "00060", rows := [(0, some 1), (2, some 3)] }

/-- Stage frame with rows at times 2 and 5 (the second one null). -/
def gEx : SeriesFrame := { code := "00065", rows := [(2, some 5), (5, none)] }

/-- Zone-aware two-row table. -/
def tsEx : TsTable :=
  { tz := some "UTC", times := [0, 15], cols := [("discharge_cfs", [some 1, some 2])] }

/-- Concrete zone-offset function (a constant offset; the claims do
not depend on the offset values). -/
def offEx : String → ℤ → ℤ := fun _ _ => -420

/-- Empty file system. -/
def fs0 : FS := { files := [] }

/-- Small non-empty fetch result. -/
def wEx : WTable := { index := [0], cols := [("discharge_cfs", [some 1])] }

/-! ## Helper lemmas -/

/-- Bind on a successful Except just applies the continuation. -/
@[simp] lemma exBind_ok {α β : Type} (a : α) (f : α → Except PyErr β) :
    (Except.ok a >>= f) = f a := rfl

/-- Bind on a failed Except propagates the error. -/
@[simp] lemma exBind_error {α β : Type} (e : PyErr) (f : α → Except PyErr β) :
    ((Except.error e : Except PyErr α) >>= f) = Except.error e := rfl

@[simp] lemma alookup_nil {α β : Type} [DecidableEq α] (k : α) :
    alookup k ([] : List (α × β)) = none := rfl

@[simp] lemma alookup_cons {α β : Type} [DecidableEq α] (k k' : α) (v : β)
    (l : List (α × β)) :
    alookup k ((k', v) :: l) = if k' = k then some v else alookup k l := rfl

/-- A key that is not among the first components is not found. -/
lemma alookup_eq_none_of_not_mem {α β : Type} [DecidableEq α] (k : α)
    (l : List (α × β)) (h : k ∉ l.map Prod.fst) : alookup k l = none := by
  induction l with
  | nil => rfl
  | cons p rest ih =>
    obtain ⟨k', v⟩ := p
    simp only [List.map_cons, List.mem_cons] at h
    push_neg at h
    rw [alookup_cons, if_neg (fun hk => h.1 hk.symm)]
    exact ih h.2

/-- Right cancellation for string concatenation. -/
lemma string_append_cancel {a b t : String} (h : a ++ t = b ++ t) : a = b := by
  apply String.ext
  have h2 := congrArg String.data h
  rw [String.data_append, String.data_append] at h2
  exact List.append_cancel_right h2

/-- NaN standard deviation makes the z cell NaN. -/
lemma mkZ_sigma_none (x m : Option ℚ) : mkZ x m none = PVal.nan := by
  cases x <;> cases m <;> rfl

/-- NaN current value makes the z cell NaN. -/
lemma mkZ_x_none (m s : Option ℚ) : mkZ none m s = PVal.nan := by
  cases m <;> cases s <;> rfl

lemma windowSlice_length_le_succ (xs : List (Option ℚ)) (w i : ℕ) :
    (windowSlice xs w i).length ≤ i + 1 := by
  unfold windowSlice
  rw [List.length_drop, List.length_take]
  omega

lemma windowSlice_length_le_w (xs : List (Option ℚ)) (w i : ℕ) :
    (windowSlice xs w i).length ≤ w := by
  unfold windowSlice
  rw [List.length_drop, List.length_take]
  omega

lemma obs_length_le_succ (xs : List (Option ℚ)) (w i : ℕ) :
    (obs xs w i).length ≤ i + 1 :=
  le_trans (List.reduceOption_length_le _) (windowSlice_length_le_succ xs w i)

lemma obs_length_le_w (xs : List (Option ℚ)) (w i : ℕ) :
    (obs xs w i).length ≤ w :=
  le_trans (List.reduceOption_length_le _) (windowSlice_length_le_w xs w i)

/-- The current row value, when present, is among the observations of
its own trailing window (for any window width at least 1). -/
lemma mem_obs_self (xs : List (Option ℚ)) (w i : ℕ) (x : ℚ) (hw : 1 ≤ w)
    (hx : xs.getD i none = some x) : x ∈ obs xs w i := by
  have hx' : xs.get? i = some (some x) := by
    rw [List.getD_eq_get?] at hx
    cases h : xs.get? i with
    | none => rw [h] at hx; simp at hx
    | some v => rw [h] at hx; simp at hx; rw [hx]
  have h1 : (xs.take (i + 1)).get? i = some (some x) := by
    rw [List.get?_take (Nat.lt_succ_self i), hx']
  have h2 : (windowSlice xs w i).get? (i - (i + 1 - w)) = some (some x) := by
    unfold windowSlice
    rw [List.get?_drop]
    have harith : (i + 1 - w) + (i - (i + 1 - w)) = i := by omega
    rw [harith, h1]
  exact List.reduceOption_mem_iff.mpr (List.get?_mem h2)

/-- A list of nonnegative rationals with zero sum is all zeros. -/
lemma sum_zero_all_zero (l : List ℚ) (hnn : ∀ x ∈ l, 0 ≤ x) (hs : l.sum = 0) :
    ∀ x ∈ l, x = 0 := by
  induction l with
  | nil => simp
  | cons a rest ih =>
    rw [List.sum_cons] at hs
    have ha : 0 ≤ a := hnn a (by simp)
    have hrest : 0 ≤ rest.sum := List.sum_nonneg (fun x hx => hnn x (by simp [hx]))
    have ha0 : a = 0 := by linarith
    have hr0 : rest.sum = 0 := by linarith
    intro x hx
    rcases List.mem_cons.mp hx with h | h
    · rw [h]; exact ha0
    · exact ih (fun y hy => hnn y (by simp [hy])) hr0 x h

lemma rmean_of_le (xs : List (Option ℚ)) (w i : ℕ) (h : 7 ≤ (obs xs w i).length) :
    rmean xs w 7 i = some ((obs xs w i).sum / ((obs xs w i).length : ℚ)) := by
  unfold rmean
  rw [if_pos h]

lemma rvar_eq_none_of_small (xs : List (Option ℚ)) (w i : ℕ)
    (h : (obs xs w i).length < 7) : rvar xs w 7 i = none := by
  unfold rvar
  rw [if_neg (by omega)]

/-- With fewer than min_periods rows of history the z cell is NaN. -/
lemma zcell_nan_of_small (sq : ℚ → ℚ) (xs : List (Option ℚ)) (w i : ℕ) (h : i < 6) :
    zcellP sq xs w 7 i = PVal.nan := by
  have hlen : (obs xs w i).length < 7 :=
    lt_of_le_of_lt (obs_length_le_succ xs w i) (by omega)
  unfold zcellP
  have hstd : rstd sq xs w 7 i = none := by
    unfold rstd
    rw [rvar_eq_none_of_small xs w i hlen]
    rfl
  rw [hstd]
  exact mkZ_sigma_none _ _

/-- Zero rolling variance means every observation of the window
equals the rolling mean. -/
lemma obs_eq_mean_of_var_zero (xs : List (Option ℚ)) (w i : ℕ)
    (hv : rvar xs w 7 i = some 0) :
    7 ≤ (obs xs w i).length ∧
    ∀ x ∈ obs xs w i, x = (obs xs w i).sum / ((obs xs w i).length : ℚ) := by
  unfold rvar at hv
  by_cases h : 7 ≤ (obs xs w i).length
  · rw [if_pos h] at hv
    have hv' := Option.some.inj hv
    refine ⟨h, ?_⟩
    have hlen : (7 : ℚ) ≤ ((obs xs w i).length : ℚ) := by exact_mod_cast h
    have hden : (((obs xs w i).length : ℚ) - 1) ≠ 0 := by linarith
    have hsum : ((obs xs w i).map
        (fun v => (v - (obs xs w i).sum / ((obs xs w i).length : ℚ)) ^ 2)).sum = 0 := by
      rcases div_eq_zero_iff.mp hv' with h0 | h0
      · exact h0
      · exact absurd h0 hden
    intro x hx
    have hx2 : (x - (obs xs w i).sum / ((obs xs w i).length : ℚ)) ^ 2 = 0 := by
      refine sum_zero_all_zero _ ?_ hsum _ (List.mem_map.mpr ⟨x, hx, rfl⟩)
      intro y hy
      rcases List.mem_map.mp hy with ⟨v, _, rfl⟩
      positivity
    have hx0 := (pow_eq_zero_iff (two_ne_zero)).mp hx2
    linarith [hx0]
  · rw [if_neg h] at hv
    exact absurd hv (by simp)

/-- A timeSeries entry missing the variable key raises KeyError. -/
lemma parseSeries_no_variable (pt : String → Option ℤ) (pf : String → Option ℚ)
    (bkvs : List (String × Json)) (h : alookup "variable" bkvs = none) :
    parseSeries pt pf (Json.obj bkvs) = Except.error PyErr.keyError := by
  unfold parseSeries
  simp [getItem, h]

/-- A well-formed timeSeries entry with no records is skipped. -/
lemma parseSeries_empty (pt : String → Option ℤ) (pf : String → Option ℚ)
    (code : String) :
    parseSeries pt pf (mkSeriesJson code []) = Except.ok none := by
  unfold parseSeries mkSeriesJson
  simp [getItem, getIdx, asArr, asStr, mapAllRecords]

/-- The series loop propagates the first entry failure. -/
lemma mapAllSeries_append_error (pt : String → Option ℤ) (pf : String → Option ℚ)
    (pre post : List Json) (bad : Json) (e : PyErr)
    (hpre : ∀ ts ∈ pre, ∃ r, parseSeries pt pf ts = Except.ok r)
    (hbad : parseSeries pt pf bad = Except.error e) :
    mapAllSeries pt pf (pre ++ bad :: post) = Except.error e := by
  induction pre with
  | nil => simp [mapAllSeries, hbad]
  | cons t ts ih =>
    obtain ⟨r, hr⟩ := hpre t (by simp)
    have ih' := ih (fun u hu => hpre u (by simp [hu]))
    simp [mapAllSeries, hr, ih']

/-- The record loop propagates the first record failure. -/
lemma mapAllRecords_append_error (pt : String → Option ℤ) (pf : String → Option ℚ)
    (pre post : List Json) (bad : Json) (e : PyErr)
    (hpre : ∀ v ∈ pre, ∃ x, parseRecord pt pf v = Except.ok x)
    (hbad : parseRecord pt pf bad = Except.error e) :
    mapAllRecords pt pf (pre ++ bad :: post) = Except.error e := by
  induction pre with
  | nil => simp [mapAllRecords, hbad]
  | cons t ts ih =>
    obtain ⟨r, hr⟩ := hpre t (by simp)
    have ih' := ih (fun u hu => hpre u (by simp [hu]))
    simp [mapAllRecords, hr, ih']

/-- A response missing the value key parses to the empty table. -/
lemma parseEnvelope_no_value (pt : String → Option ℤ) (pf : String → Option ℚ)
    (ren : List (String × String)) (kvs : List (String × Json))
    (h : alookup "value" kvs = none) :
    parseEnvelope pt pf ren (Json.obj kvs) = Except.ok emptyW := by
  unfold parseEnvelope
  simp [jgetD, h, asArr, mapAllSeries]

/-- A response whose value object has no timeSeries key parses to the
empty table. -/
lemma parseEnvelope_no_ts (pt : String → Option ℤ) (pf : String → Option ℚ)
    (ren : List (String × String)) (kvs vkvs : List (String × Json))
    (h1 : alookup "value" kvs = some (Json.obj vkvs))
    (h2 : alookup "timeSeries" vkvs = none) :
    parseEnvelope pt pf ren (Json.obj kvs) = Except.ok emptyW := by
  unfold parseEnvelope
  simp [jgetD, h1, h2, asArr, mapAllSeries]

/-- A failure of the series loop propagates out of the whole parse. -/
lemma parseEnvelope_entry_error (pt : String → Option ℤ) (pf : String → Option ℚ)
    (ren : List (String × String)) (tsl : List Json) (e : PyErr)
    (h : mapAllSeries pt pf tsl = Except.error e) :
    parseEnvelope pt pf ren (mkEnvelope tsl) = Except.error e := by
  unfold parseEnvelope mkEnvelope
  simp [jgetD, asArr, h]

/-- A failure of the record loop propagates out of the entry parse. -/
lemma parseSeries_records_error (pt : String → Option ℤ) (pf : String → Option ℚ)
    (code : String) (lst : List Json) (e : PyErr)
    (h : mapAllRecords pt pf lst = Except.error e) :
    parseSeries pt pf (mkSeriesJson code lst) = Except.error e := by
  unfold parseSeries mkSeriesJson
  simp [getItem, getIdx, asArr, asStr, h]

/-- A record with a parseable timestamp and a sentinel value parses
to a missing reading. -/
lemma parseRecord_sentinel (pt : String → Option ℤ) (pf : String → Option ℚ)
    (kvs : List (String × Json)) (s : String) (t : ℤ) (vj : Json)
    (hdt : alookup "dateTime" kvs = some (Json.str s))
    (hv : alookup "value" kvs = some vj)
    (hsent : isEmptySentinel vj = true)
    (hpt : pt s = some t) :
    parseRecord pt pf (Json.obj kvs) = Except.ok (t, none) := by
  unfold parseRecord
  simp [getItem, hdt, hv, asStr, hpt, hsent]

/-- A record whose dateTime string the parser rejects raises
ValueError. -/
lemma parseRecord_bad_time (pt : String → Option ℤ) (pf : String → Option ℚ)
    (kvs : List (String × Json)) (s : String)
    (hdt : alookup "dateTime" kvs = some (Json.str s))
    (hpt : pt s = none) :
    parseRecord pt pf (Json.obj kvs) = Except.error PyErr.valueError := by
  unfold parseRecord
  simp [getItem, hdt, asStr, hpt]

/-! ## Claims C1 and C2 -/

/-- C1, amended: only envelope-level schema damage degrades to an
empty table — a response missing the value key, or whose value object
lacks the timeSeries key, yields the empty table from fetch_iv and
fetch_dv, and a well-formed series whose record list is empty is
skipped; but a timeSeries entry missing the variable key makes
fetch_iv and fetch_dv raise KeyError to the caller instead of
degrading that series to an empty result. -/
theorem claim1_amended (pt : String → Option ℤ) (pf : String → Option ℚ) :
    (∀ kvs : List (String × Json), alookup "value" kvs = none →
      parse_iv pt pf (Json.obj kvs) = Except.ok emptyW ∧
      parse_dv pt pf (Json.obj kvs) = Except.ok emptyW) ∧
    (∀ kvs vkvs : List (String × Json), alookup "value" kvs = some (Json.obj vkvs) →
      alookup "timeSeries" vkvs = none →
      parse_iv pt pf (Json.obj kvs) = Except.ok emptyW ∧
      parse_dv pt pf (Json.obj kvs) = Except.ok emptyW) ∧
    (∀ code : String, parseSeries pt pf (mkSeriesJson code []) = Except.ok none) ∧
    (∀ (pre post : List Json) (bkvs : List (String × Json)),
      alookup "variable" bkvs = none →
      (∀ ts ∈ pre, ∃ r, parseSeries pt pf ts = Except.ok r) →
      parse_iv pt pf (mkEnvelope (pre ++ Json.obj bkvs :: post)) =
        Except.error PyErr.keyError ∧
      parse_dv pt pf (mkEnvelope (pre ++ Json.obj bkvs :: post)) =
        Except.error PyErr.keyError) := by
  refine ⟨?_, ?_, ?_, ?_⟩
  · intro kvs h
    exact ⟨parseEnvelope_no_value pt pf ivRename kvs h,
           parseEnvelope_no_value pt pf dvRename kvs h⟩
  · intro kvs vkvs h1 h2
    exact ⟨parseEnvelope_no_ts pt pf ivRename kvs vkvs h1 h2,
           parseEnvelope_no_ts pt pf dvRename kvs vkvs h1 h2⟩
  · intro code
    exact parseSeries_empty pt pf code
  · intro pre post bkvs hvar hpre
    have hmap := mapAllSeries_append_error pt pf pre post (Json.obj bkvs) PyErr.keyError
      hpre (parseSeries_no_variable pt pf bkvs hvar)
    exact ⟨parseEnvelope_entry_error pt pf ivRename _ _ hmap,
           parseEnvelope_entry_error pt pf dvRename _ _ hmap⟩

/-- C1 counterexample: an envelope whose single timeSeries entry is
an empty object makes fetch_iv raise KeyError instead of returning a
table, refuting the claim that schema errors never propagate. -/
theorem claim1_counterexample :
    parse_iv pt0 pf0 (mkEnvelope [Json.obj []]) = Except.error PyErr.keyError := by
  rfl

/-- C1 witness: the amended theorem applied to a concrete envelope
with no value key. -/
theorem claim1_witness :
    parse_iv pt0 pf0 (Json.obj []) = Except.ok emptyW ∧
    parse_dv pt0 pf0 (Json.obj []) = Except.ok emptyW :=
  (claim1_amended pt0 pf0).1 [] rfl

/-- C2, amended: an empty-string (or null) reading value degrades to
a missing value without aborting, but a record whose dateTime string
is unparseable raises ValueError and aborts the whole batch of
fetch_iv or fetch_dv — no other records of the batch are returned. -/
theorem claim2_amended (pt : String → Option ℤ) (pf : String → Option ℚ) :
    (∀ (kvs : List (String × Json)) (s : String) (t : ℤ) (vj : Json),
      alookup "dateTime" kvs = some (Json.str s) →
      alookup "value" kvs = some vj → isEmptySentinel vj = true → pt s = some t →
      parseRecord pt pf (Json.obj kvs) = Except.ok (t, none)) ∧
    (∀ (kvs : List (String × Json)) (s : String),
      alookup "dateTime" kvs = some (Json.str s) → pt s = none →
      parseRecord pt pf (Json.obj kvs) = Except.error PyErr.valueError) ∧
    (∀ (code : String) (pre post : List Json) (r : Json),
      (∀ v ∈ pre, ∃ x, parseRecord pt pf v = Except.ok x) →
      parseRecord pt pf r = Except.error PyErr.valueError →
      parse_iv pt pf (mkEnvelope [mkSeriesJson code (pre ++ r :: post)]) =
        Except.error PyErr.valueError ∧
      parse_dv pt pf (mkEnvelope [mkSeriesJson code (pre ++ r :: post)]) =
        Except.error PyErr.valueError) := by
  refine ⟨?_, ?_, ?_⟩
  · intro kvs s t vj hdt hv hsent hpt
    exact parseRecord_sentinel pt pf kvs s t vj hdt hv hsent hpt
  · intro kvs s hdt hpt
    exact parseRecord_bad_time pt pf kvs s hdt hpt
  · intro code pre post r hpre hr
    have hrecs := mapAllRecords_append_error pt pf pre post r PyErr.valueError hpre hr
    have hser := parseSeries_records_error pt pf code _ PyErr.valueError hrecs
    have hmap : mapAllSeries pt pf [mkSeriesJson code (pre ++ r :: post)] =
        Except.error PyErr.valueError := by
      simp [mapAllSeries, hser]
    exact ⟨parseEnvelope_entry_error pt pf ivRename _ _ hmap,
           parseEnvelope_entry_error pt pf dvRename _ _ hmap⟩

/-- C2 counterexample: a batch with one good record and one record
with an unparseable timestamp makes fetch_iv raise ValueError — the
good record is not returned — while the same batch without the bad
record parses fine, refuting the claim that an unparseable timestamp
never aborts the batch. -/
theorem claim2_counterexample :
    parse_iv pt0 pf0 (mkEnvelope [mkSeriesJson "00060" [goodRec, badTimeRec]]) =
      Except.error PyErr.valueError ∧
    parse_iv pt0 pf0 (mkEnvelope [mkSeriesJson "00060" [goodRec]]) =
      Except.ok { index := [0], cols := [("discharge_cfs", [none])] } := by
  exact ⟨rfl, rfl⟩

/-- C2 witness: the amended theorem applied to a concrete batch. -/
theorem claim2_witness :
    parse_iv pt0 pf0 (mkEnvelope [mkSeriesJson "00060" [badTimeRec]]) =
      Except.error PyErr.valueError :=
  ((claim2_amended pt0 pf0).2.2 "00060" [] [] badTimeRec (by simp)
    ((claim2_amended pt0 pf0).2.1 [("dateTime", Json.str "not-a-timestamp")]
      "not-a-timestamp" rfl rfl)).1

/-! ## Claim C3 -/

/-- After a miss, load_or_fetch persists the fetch result under the
cache path and a second call with the same key fetches nothing and
returns the persisted artifact. -/
lemma load_or_fetch_miss (r r2 : WTable) (site tag : String) (fs : FS)
    (hmiss : alookup (cache_path site tag) fs.files = none) :
    (load_or_fetch r site tag fs).2.2 = true ∧
    alookup (cache_path site tag) (load_or_fetch r site tag fs).2.1.files = some r ∧
    (load_or_fetch r2 site tag (load_or_fetch r site tag fs).2.1).2.2 = false ∧
    (load_or_fetch r2 site tag (load_or_fetch r site tag fs).2.1).1 = r := by
  simp only [load_or_fetch, hmiss]
  simp

/-- C3: after a cache miss, load_or_fetch_iv (and load_or_fetch_dv)
persists the fetched artifact — including an empty one — and an
immediately following call with the same site and window issues no
remote request and returns exactly the persisted artifact, whatever
a fresh fetch would have produced. -/
theorem claim3 (site : String) (days years : ℕ) (fsI fsD : FS) (r r2 : WTable)
    (hmissIv : alookup (cache_path site ("iv_" ++ toString days ++ "d")) fsI.files = none)
    (hmissDv : alookup (cache_path site ("dv_" ++ toString years ++ "y")) fsD.files = none) :
    ((load_or_fetch_iv r site days fsI).2.2 = true ∧
     alookup (cache_path site ("iv_" ++ toString days ++ "d"))
       (load_or_fetch_iv r site days fsI).2.1.files = some r ∧
     (load_or_fetch_iv r2 site days (load_or_fetch_iv r site days fsI).2.1).2.2 = false ∧
     (load_or_fetch_iv r2 site days (load_or_fetch_iv r site days fsI).2.1).1 = r) ∧
    ((load_or_fetch_dv r site years fsD).2.2 = true ∧
     alookup (cache_path site ("dv_" ++ toString years ++ "y"))
       (load_or_fetch_dv r site years fsD).2.1.files = some r ∧
     (load_or_fetch_dv r2 site years (load_or_fetch_dv r site years fsD).2.1).2.2 = false ∧
     (load_or_fetch_dv r2 site years (load_or_fetch_dv r site years fsD).2.1).1 = r) :=
  ⟨load_or_fetch_miss r r2 site ("iv_" ++ toString days ++ "d") fsI hmissIv,
   load_or_fetch_miss r r2 site ("dv_" ++ toString years ++ "y") fsD hmissDv⟩

/-- C3 witness: the theorem applied to the empty file system, an
empty first fetch result and a different hypothetical second fetch
result. -/
theorem claim3_witness :
    (load_or_fetch_iv emptyW "09095500" 7 fs0).2.2 = true ∧
    alookup (cache_path "09095500" ("iv_" ++ toString 7 ++ "d"))
      (load_or_fetch_iv emptyW "09095500" 7 fs0).2.1.files = some emptyW ∧
    (load_or_fetch_iv wEx "09095500" 7 (load_or_fetch_iv emptyW "09095500" 7 fs0).2.1).2.2
      = false ∧
    (load_or_fetch_iv wEx "09095500" 7 (load_or_fetch_iv emptyW "09095500" 7 fs0).2.1).1
      = emptyW :=
  (claim3 "09095500" 7 5 fs0 fs0 emptyW wEx rfl rfl).1

/-! ## Claim C4 -/

/-- C4: for two single-quantity series with per-series unique
timestamps (as pandas concat requires), fetch_iv merges them by an
outer join on timestamp: concat succeeds, the joined index contains
each timestamp of either series exactly once in strictly ascending
order, each series contributes one column aligned on that index, and
at a timestamp reported by only one series the other column is
missing. -/
theorem claim4 (f g : SeriesFrame)
    (hf : (f.rows.map Prod.fst).Nodup) (hg : (g.rows.map Prod.fst).Nodup) :
    concatFrames [f, g] = Except.ok (joinFrames [f, g]) ∧
    (∀ t : ℤ, t ∈ (joinFrames [f, g]).index ↔
      (t ∈ f.rows.map Prod.fst ∨ t ∈ g.rows.map Prod.fst)) ∧
    (joinFrames [f, g]).index.Nodup ∧
    (joinFrames [f, g]).index.Sorted (· < ·) ∧
    (joinFrames [f, g]).cols =
      [(f.code, (joinFrames [f, g]).index.map (cellAt f)),
       (g.code, (joinFrames [f, g]).index.map (cellAt g))] ∧
    (∀ t ∈ (joinFrames [f, g]).index, t ∉ f.rows.map Prod.fst → cellAt f t = none) ∧
    (∀ t ∈ (joinFrames [f, g]).index, t ∉ g.rows.map Prod.fst → cellAt g t = none) := by
  have hidx : (joinFrames [f, g]).index =
      ((f.rows.map Prod.fst ++ g.rows.map Prod.fst).dedup).insertionSort (· ≤ ·) := by
    simp [joinFrames]
  have hnodup : (joinFrames [f, g]).index.Nodup := by
    rw [hidx]
    exact ((List.perm_insertionSort _ _).nodup_iff).mpr (List.nodup_dedup _)
  refine ⟨?_, ?_, hnodup, ?_, ?_, ?_, ?_⟩
  · have hcond : ∀ fr ∈ [f, g], (fr.rows.map Prod.fst).Nodup := by
      intro fr hfr
      rcases List.mem_cons.mp hfr with h | h
      · rw [h]; exact hf
      · rw [List.mem_singleton.mp h]; exact hg
    unfold concatFrames
    rw [if_pos hcond]
  · intro t
    rw [hidx, (List.perm_insertionSort _ _).mem_iff, List.mem_dedup]
    exact List.mem_append
  · rw [hidx]
    exact List.Sorted.lt_of_le (List.sorted_insertionSort _ _) (hidx ▸ hnodup)
  · rfl
  · intro t _ hnot
    simp [cellAt, alookup_eq_none_of_not_mem t f.rows hnot]
  · intro t _ hnot
    simp [cellAt, alookup_eq_none_of_not_mem t g.rows hnot]

/-- C4 witness: the theorem applied to concrete discharge and stage
frames that overlap at one timestamp. -/
theorem claim4_witness :
    concatFrames [fEx, gEx] = Except.ok (joinFrames [fEx, gEx]) ∧
    (joinFrames [fEx, gEx]).index.Sorted (· < ·) ∧
    (∀ t ∈ (joinFrames [fEx, gEx]).index,
      t ∉ gEx.rows.map Prod.fst → cellAt gEx t = none) :=
  ⟨(claim4 fEx gEx (by decide) (by decide)).1,
   (claim4 fEx gEx (by decide) (by decide)).2.2.2.1,
   (claim4 fEx gEx (by decide) (by decide)).2.2.2.2.2.2⟩

/-! ## Claim C9 -/

/-- C9: to_local is a no-op on a table whose index already lacks zone
information, and is therefore idempotent on every table. -/
theorem claim9 (off : String → ℤ → ℤ) (t : TsTable) :
    (t.tz = none → to_local off t = t) ∧
    to_local off (to_local off t) = to_local off t := by
  have hnoop : ∀ s : TsTable, s.tz = none → to_local off s = s := by
    intro s hs
    unfold to_local
    rw [hs]
  constructor
  · exact hnoop t
  · cases h : t.tz with
    | none => rw [hnoop t h, hnoop t h]
    | some z =>
      apply hnoop
      unfold to_local
      rw [h]

/-- C9 witness: the theorem applied to a concrete zone-aware table
and to its naive counterpart. -/
theorem claim9_witness :
    to_local offEx (to_local offEx tsEx) = to_local offEx tsEx ∧
    to_local offEx { tsEx with tz := none } = { tsEx with tz := none } :=
  ⟨(claim9 offEx tsEx).2, (claim9 offEx { tsEx with tz := none }).1 rfl⟩

/-! ## Claims C5, C6, C7 -/

/-- Rolling variance in closed form once min_periods observations are
available. -/
lemma rvar_of_le (xs : List (Option ℚ)) (w i : ℕ) (h : 7 ≤ (obs xs w i).length) :
    rvar xs w 7 i = some (((obs xs w i).map
      (fun v => (v - (obs xs w i).sum / ((obs xs w i).length : ℚ)) ^ 2)).sum /
      (((obs xs w i).length : ℚ) - 1)) := by
  simp only [rvar]
  rw [if_pos h]

/-- C5, amended: with min_periods = 7 the first min_periods − 1 = 6
rows of each z column are undefined (missing) — not the first
window − min_periods rows — because insufficient history makes the
rolling statistics NaN there, so the z cell is missing rather than
zero or infinite. -/
theorem claim5_amended (sq : ℚ → ℚ) (w : ℕ) (c : DCol) (i : ℕ)
    (h6 : i < 7 - 1) (hi : i < c.vals.length) :
    (zColOf sq w c).vals.get? i = some none := by
  unfold zColOf
  rw [List.get?_map, List.get?_range hi]
  simp only [Option.map_some']
  rw [zcell_nan_of_small sq c.vals w i (by omega)]
  rfl

/-- C5 counterexample: in a 7-row column scored with window 30 and
min_periods 7, row 6 of the z column is already defined (9/14 for the
increasing column under the identity square root), although
6 < window − min_periods = 23 — refuting the claim that the first
window − min_periods rows are undefined. -/
theorem claim5_counterexample :
    (zColOf id 30 aCol).vals.get? 6 = some (some (9 / 14)) ∧ 6 < 30 - 7 := by
  constructor
  · have hobs : obs exCol 30 6 = [0, 1, 2, 3, 4, 5, 6] := by decide
    have hmean : rmean exCol 30 7 6 = some 3 := by
      rw [rmean_of_le exCol 30 6 (by rw [hobs]; norm_num)]
      rw [hobs]
      norm_num [List.sum_cons, List.sum_nil, List.length_cons, List.length_nil]
    have hvar : rvar exCol 30 7 6 = some (14 / 3) := by
      rw [rvar_of_le exCol 30 6 (by rw [hobs]; norm_num)]
      rw [hobs]
      norm_num [List.map_cons, List.map_nil, List.sum_cons, List.sum_nil,
        List.length_cons, List.length_nil]
    have hstd : rstd id exCol 30 7 6 = some (14 / 3) := by
      unfold rstd
      rw [hvar]
      rfl
    have hz : zcellP id exCol 30 7 6 = PVal.fin (9 / 14) := by
      unfold zcellP
      have hx : exCol.getD 6 none = some 6 := by decide
      rw [hx, hmean, hstd]
      simp only [mkZ]
      unfold fdiv
      rw [if_neg (by norm_num)]
      norm_num
    have hv : aCol.vals = exCol := rfl
    unfold zColOf
    rw [List.get?_map, List.get?_range (by decide : (6 : ℕ) < aCol.vals.length)]
    simp only [Option.map_some']
    rw [hv, hz]
    rfl
  · norm_num

/-- C5 witness: the amended theorem applied at row 2 of the concrete
column. -/
theorem claim5_witness : (zColOf id 30 aCol).vals.get? 2 = some none :=
  claim5_amended id 30 aCol 2 (by norm_num) (by decide)

/-- C6, amended: the first min_periods − 1 rows of each z column are
missing; from then on the z-score is defined at every row whose own
value is present and whose trailing windowed standard deviation is
defined and nonzero — a row whose own value is missing yields a
missing z-score even when that standard deviation is nonzero. -/
theorem claim6_amended (sq : ℚ → ℚ) (xs : List (Option ℚ)) (w i : ℕ) :
    (i < 7 - 1 → zcellP sq xs w 7 i = PVal.nan) ∧
    (∀ (x s : ℚ), xs.getD i none = some x → rstd sq xs w 7 i = some s → s ≠ 0 →
      ∃ q : ℚ, zcellP sq xs w 7 i = PVal.fin q) := by
  constructor
  · intro h
    exact zcell_nan_of_small sq xs w i (by omega)
  · intro x s hx hs hs0
    have hv : ∃ v, rvar xs w 7 i = some v := by
      unfold rstd at hs
      cases hvv : rvar xs w 7 i with
      | none => rw [hvv] at hs; simp at hs
      | some v => exact ⟨v, rfl⟩
    obtain ⟨v, hv⟩ := hv
    have hlen : 7 ≤ (obs xs w i).length := by
      by_contra hlt
      rw [rvar_eq_none_of_small xs w i (by omega)] at hv
      simp at hv
    refine ⟨(x - (obs xs w i).sum / ((obs xs w i).length : ℚ)) / s, ?_⟩
    unfold zcellP
    rw [hx, rmean_of_le xs w i hlen, hs]
    simp only [mkZ]
    unfold fdiv
    rw [if_neg hs0]

/-- C6 counterexample: at row 7 of a column whose own row-7 value is
missing, the trailing windowed standard deviation is defined and
nonzero (14/3 under the identity square root) yet the z-score is the
NaN sentinel, refuting the claim that the z-score is defined at every
row past min_periods where the windowed standard deviation is
nonzero. -/
theorem claim6_counterexample :
    rstd id exColHole 30 7 7 = some (14 / 3) ∧ (14 / 3 : ℚ) ≠ 0 ∧
    zcellP id exColHole 30 7 7 = PVal.nan := by
  have hobs : obs exColHole 30 7 = [0, 1, 2, 3, 4, 5, 6] := by decide
  refine ⟨?_, by norm_num, ?_⟩
  · have hvar : rvar exColHole 30 7 7 = some (14 / 3) := by
      rw [rvar_of_le exColHole 30 7 (by rw [hobs]; norm_num)]
      rw [hobs]
      norm_num [List.map_cons, List.map_nil, List.sum_cons, List.sum_nil,
        List.length_cons, List.length_nil]
    unfold rstd
    rw [hvar]
    rfl
  · have hx : exColHole.getD 7 none = none := by decide
    unfold zcellP
    rw [hx]
    exact mkZ_x_none _ _

/-- C6 witness: the amended theorem applied to the concrete
increasing column at rows 2 (missing) and 6 (defined). -/
theorem claim6_witness :
    zcellP id exCol 30 7 2 = PVal.nan ∧
    ∃ q : ℚ, zcellP id exCol 30 7 6 = PVal.fin q := by
  constructor
  · exact (claim6_amended id exCol 30 2).1 (by norm_num)
  · have hobs : obs exCol 30 6 = [0, 1, 2, 3, 4, 5, 6] := by decide
    have hvar : rvar exCol 30 7 6 = some (14 / 3) := by
      rw [rvar_of_le exCol 30 6 (by rw [hobs]; norm_num)]
      rw [hobs]
      norm_num [List.map_cons, List.map_nil, List.sum_cons, List.sum_nil,
        List.length_cons, List.length_nil]
    have hstd : rstd id exCol 30 7 6 = some (14 / 3) := by
      unfold rstd
      rw [hvar]
      rfl
    exact (claim6_amended id exCol 30 6).2 6 (14 / 3) (by decide) hstd (by norm_num)

/-- C7: at every row where the trailing-window standard deviation is
exactly zero (a constant window), the z-score cell is the NaN
sentinel: the total function never raises, and the result is never 0
and never a signed infinity. -/
theorem claim7 (sq : ℚ → ℚ) (hsq : SqrtLike sq) (xs : List (Option ℚ)) (w i : ℕ)
    (h : rstd sq xs w 7 i = some 0) :
    zcellP sq xs w 7 i = PVal.nan ∧ zcellP sq xs w 7 i ≠ PVal.fin 0 ∧
    zcellP sq xs w 7 i ≠ PVal.pinf ∧ zcellP sq xs w 7 i ≠ PVal.ninf := by
  have hv : rvar xs w 7 i = some 0 := by
    unfold rstd at h
    cases hvv : rvar xs w 7 i with
    | none => rw [hvv] at h; simp at h
    | some v =>
      rw [hvv] at h
      simp only [Option.map_some'] at h
      have h0 := Option.some.inj h
      rw [(hsq v).mp h0]
  obtain ⟨hlen, hall⟩ := obs_eq_mean_of_var_zero xs w i hv
  have hw1 : 1 ≤ w := le_trans (by omega) (le_trans hlen (obs_length_le_w xs w i))
  have main : zcellP sq xs w 7 i = PVal.nan := by
    unfold zcellP
    cases hx : xs.getD i none with
    | none => exact mkZ_x_none _ _
    | some x =>
      have hxm := hall x (mem_obs_self xs w i x hw1 hx)
      rw [rmean_of_le xs w i hlen, h]
      simp only [mkZ]
      rw [show x - (obs xs w i).sum / ((obs xs w i).length : ℚ) = 0 from by
        rw [hxm]; ring]
      unfold fdiv
      simp
  refine ⟨main, ?_, ?_, ?_⟩ <;> rw [main] <;> simp

/-- C7 witness: the theorem applied to a constant seven-row column
under the identity square root. -/
theorem claim7_witness :
    rstd id constCol 30 7 6 = some 0 ∧ zcellP id constCol 30 7 6 = PVal.nan := by
  have hobs : obs constCol 30 6 = [5, 5, 5, 5, 5, 5, 5] := by decide
  have hvar : rvar constCol 30 7 6 = some 0 := by
    rw [rvar_of_le constCol 30 6 (by rw [hobs]; norm_num)]
    rw [hobs]
    norm_num [List.map_cons, List.map_nil, List.sum_cons, List.sum_nil,
      List.length_cons, List.length_nil]
  have hstd : rstd id constCol 30 7 6 = some 0 := by
    unfold rstd
    rw [hvar]
    rfl
  exact ⟨hstd, (claim7 id (fun _ => Iff.rfl) constCol 30 6 hstd).1⟩

/-! ## Claims C8 and C10 -/

/-- With an adequate window the column loop never fails. -/
lemma anomLoop_ok_of_ge (sq : ℚ → ℚ) (w : ℕ) (hw : 7 ≤ w) (todo : List DCol) :
    ∀ out, ∃ res, anomLoop sq w todo out = Except.ok res := by
  induction todo with
  | nil => intro out; exact ⟨out, rfl⟩
  | cons c rest ih =>
    intro out
    have hw7 : ¬ w < 7 := by omega
    by_cases hc : c.numeric = false
    · obtain ⟨res, hres⟩ := ih out
      exact ⟨res, by simp [anomLoop, hc, hres]⟩
    · obtain ⟨res, hres⟩ := ih (setCol out (zColOf sq w c))
      exact ⟨res, by simp [anomLoop, hc, hw7, hres]⟩

/-- A loop over only non-numeric columns changes nothing. -/
lemma anomLoop_skip (sq : ℚ → ℚ) (w : ℕ) (todo : List DCol) :
    ∀ out, (∀ c ∈ todo, c.numeric = false) →
      anomLoop sq w todo out = Except.ok out := by
  induction todo with
  | nil => intro out _; rfl
  | cons c rest ih =>
    intro out hall
    have hc := hall c (by simp)
    have hrec := ih out (fun d hd => hall d (by simp [hd]))
    simp [anomLoop, hc, hrec]

/-- A too-small window errors at the first numeric column. -/
lemma anomLoop_error_of_lt (sq : ℚ → ℚ) (w : ℕ) (hw : w < 7) (todo : List DCol) :
    ∀ out, (∃ c ∈ todo, c.numeric = true) →
      anomLoop sq w todo out = Except.error minPeriodsMsg := by
  induction todo with
  | nil => intro out h; simp at h
  | cons c rest ih =>
    intro out h
    obtain ⟨d, hd, hdn⟩ := h
    by_cases hc : c.numeric = false
    · have hdr : d ∈ rest := by
        rcases List.mem_cons.mp hd with h1 | h1
        · rw [h1] at hdn; rw [hdn] at hc; exact absurd hc (by decide)
        · exact h1
      have hrec := ih out ⟨d, hdr, hdn⟩
      simp [anomLoop, hc, hrec]
    · simp [anomLoop, hc, hw]

/-- With an adequate window, pairwise distinct column names and no
collision between existing names and derived z names, the column loop
appends exactly one z column per numeric snapshot column, in order. -/
lemma anomLoop_append (sq : ℚ → ℚ) (w : ℕ) (hw : 7 ≤ w) (todo : List DCol) :
    ∀ out : List DCol,
      (∀ c ∈ todo, c.numeric = true → (c.name ++ "_z") ∉ out.map DCol.name) →
      (todo.map DCol.name).Nodup →
      anomLoop sq w todo out =
        Except.ok (out ++ (todo.filter (fun c => c.numeric)).map (zColOf sq w)) := by
  induction todo with
  | nil => intro out _ _; simp [anomLoop]
  | cons c rest ih =>
    intro out hfresh hnodup
    have hnd := hnodup
    rw [List.map_cons, List.nodup_cons] at hnd
    obtain ⟨hcnot, hrestnd⟩ := hnd
    by_cases hc : c.numeric = false
    · have h1 : anomLoop sq w (c :: rest) out = anomLoop sq w rest out := by
        simp [anomLoop, hc]
      rw [h1, ih out (fun d hd hdn => hfresh d (List.mem_cons_of_mem c hd) hdn) hrestnd]
      simp [List.filter_cons, hc]
    · have hct : c.numeric = true := by
        cases hcn : c.numeric
        · exact absurd hcn hc
        · rfl
      have hw7 : ¬ w < 7 := by omega
      have hnot : ¬ (out.any (fun d => d.name = (zColOf sq w c).name) = true) := by
        rw [List.any_eq_true]
        rintro ⟨d, hd, hdd⟩
        rw [decide_eq_true_eq] at hdd
        exact hfresh c (by simp) hct
          (List.mem_map.mpr ⟨d, hd, by rw [hdd]; rfl⟩)
      have hset : setCol out (zColOf sq w c) = out ++ [zColOf sq w c] := by
        unfold setCol
        rw [if_neg hnot]
      have h1 : anomLoop sq w (c :: rest) out =
          anomLoop sq w rest (out ++ [zColOf sq w c]) := by
        simp [anomLoop, hc, hw7, hset]
      have hfresh2 : ∀ d ∈ rest, d.numeric = true →
          (d.name ++ "_z") ∉ (out ++ [zColOf sq w c]).map DCol.name := by
        intro d hd hdn hin
        rw [List.map_append, List.mem_append] at hin
        rcases hin with hin | hin
        · exact hfresh d (List.mem_cons_of_mem c hd) hdn hin
        · have hin2 : d.name ++ "_z" = c.name ++ "_z" := by
            simpa using hin
          have hdc : d.name = c.name := string_append_cancel hin2
          exact hcnot (hdc ▸ List.mem_map.mpr ⟨d, hd, rfl⟩)
      rw [h1, ih (out ++ [zColOf sq w c]) hfresh2 hrestnd]
      rw [List.append_assoc]
      simp [List.filter_cons, hct]

/-- C8, amended: for every non-empty daily table (at least one row
and one column) with pairwise distinct column names, none of which
collides with another column name extended by the z suffix, and a
window of at least min_periods, rolling_anoms keeps every original
column with its values unchanged, keeps the index (row count and
ordering), and appends exactly one z column per numeric column — in
particular never a z-score of a z column; an empty table is instead
returned unchanged with no z columns added. -/
theorem claim8_amended (sq : ℚ → ℚ) (w : ℕ) (daily : DTable)
    (hrows : daily.index ≠ []) (hcols : daily.cols ≠ []) (hw : 7 ≤ w)
    (hnodup : (daily.cols.map DCol.name).Nodup)
    (hfresh : ∀ c ∈ daily.cols, ∀ d ∈ daily.cols, d.name ≠ c.name ++ "_z") :
    rolling_anoms sq daily w =
      Except.ok { index := daily.index,
                  cols := daily.cols ++
                    (daily.cols.filter (fun c => c.numeric)).map (zColOf sq w) } := by
  have hne : ¬ (daily.index.length = 0 ∨ daily.cols.isEmpty) := by
    rintro (h | h)
    · exact hrows (List.length_eq_zero.mp h)
    · exact hcols (List.isEmpty_iff.mp h)
  unfold rolling_anoms
  rw [if_neg hne]
  rw [anomLoop_append sq w hw daily.cols daily.cols ?_ hnodup]
  · rfl
  · intro c hc hcn hin
    rcases List.mem_map.mp hin with ⟨d, hd, hdn⟩
    exact hfresh c hc d hd hdn

/-- C8 counterexample: a zero-row table with a float-typed column is
returned unchanged by rolling_anoms — no z column is added for its
numeric column — refuting the claim for every input daily table. -/
theorem claim8_counterexample :
    rolling_anoms id dEmptyRows 30 = Except.ok dEmptyRows ∧
    (∃ c ∈ dEmptyRows.cols, c.numeric = true) ∧
    "a_z" ∉ dEmptyRows.cols.map DCol.name := by
  refine ⟨rfl, ⟨{ name := "a", numeric := true, vals := [] }, by decide, rfl⟩, by decide⟩

/-- C8 witness: the amended theorem applied to the concrete seven-row
single-column table. -/
theorem claim8_witness :
    rolling_anoms id dEx 30 =
      Except.ok { index := dEx.index,
                  cols := dEx.cols ++
                    (dEx.cols.filter (fun c => c.numeric)).map (zColOf id 30) } :=
  claim8_amended id 30 dEx (by decide) (by decide) (by norm_num) (by decide) (by decide)

/-- C10: on a non-empty daily table with at least one float-typed
column, rolling_anoms with window < 7 raises the pandas ValueError
(min_periods is fixed at 7 inside the function); it runs to a normal
result whenever window ≥ 7, or when no column is numeric. -/
theorem claim10 (sq : ℚ → ℚ) (daily : DTable) (w : ℕ) :
    (daily.index ≠ [] → daily.cols ≠ [] → (∃ c ∈ daily.cols, c.numeric = true) →
      w < 7 → rolling_anoms sq daily w = Except.error minPeriodsMsg) ∧
    (7 ≤ w → ∃ out, rolling_anoms sq daily w = Except.ok out) ∧
    ((∀ c ∈ daily.cols, c.numeric = false) →
      ∃ out, rolling_anoms sq daily w = Except.ok out) := by
  refine ⟨?_, ?_, ?_⟩
  · intro hrows hcols hnum hw
    have hne : ¬ (daily.index.length = 0 ∨ daily.cols.isEmpty) := by
      rintro (h | h)
      · exact hrows (List.length_eq_zero.mp h)
      · exact hcols (List.isEmpty_iff.mp h)
    unfold rolling_anoms
    rw [if_neg hne, anomLoop_error_of_lt sq w hw daily.cols daily.cols hnum]
    rfl
  · intro hw
    unfold rolling_anoms
    by_cases hne : daily.index.length = 0 ∨ daily.cols.isEmpty
    · rw [if_pos hne]; exact ⟨daily, rfl⟩
    · rw [if_neg hne]
      obtain ⟨res, hres⟩ := anomLoop_ok_of_ge sq w hw daily.cols daily.cols
      rw [hres]
      exact ⟨_, rfl⟩
  · intro hall
    unfold rolling_anoms
    by_cases hne : daily.index.length = 0 ∨ daily.cols.isEmpty
    · rw [if_pos hne]; exact ⟨daily, rfl⟩
    · rw [if_neg hne, anomLoop_skip sq w daily.cols daily.cols hall]
      exact ⟨_, rfl⟩

/-- C10 witness: the theorem applied to the concrete table with a
window of 5. -/
theorem claim10_witness : rolling_anoms id dEx 5 = Except.error minPeriodsMsg :=
  (claim10 id dEx 5).1 (by decide) (by decide) ⟨aCol, by decide, rfl⟩ (by norm_num)
